import Mathlib

/-!
Verification of the inline asset pipeline (`src/pipelines/inline.rs`).

The Rust source is shallowly embedded: pure functions become Lean
functions, fallible operations return `Except String`, and the external
collaborators (filesystem, SASS compiler, DOM library) are passed in as
explicit function arguments so that their behaviour can be quantified
over.
-/

namespace Trunk

/-- The content type of an inlined file (`enum ContentType` in the source). -/
inductive ContentType
  /-- Html is just pasted into `index.html` as is. -/
  | Html
  /-- CSS is wrapped into `style` tags. -/
  | Css
  /-- JS is wrapped into `script` tags. -/
  | Js
  /-- SCSS needs to be compiled before being wrapped into `style` tags. -/
  | Scss
  deriving DecidableEq, Repr

/-- The error message produced by `ContentType::from_str` for an
unsupported value `s` (the `bail!` format string in the source). -/
def unknownTypeMsg (s : String) : String :=
  "unknown `type=\"" ++ s ++ "\"` value for <link data-trunk rel=\"inline\" .../> attr; please ensure the value is lowercase and is a supported content type"

/-- `impl FromStr for ContentType`: case-sensitive exact match against the
closed set of supported content-type strings. -/
def ContentType.from_str (s : String) : Except String ContentType :=
  match s with
  | "html" => .ok .Html
  | "css" => .ok .Css
  | "scss" => .ok .Scss
  | "js" => .ok .Js
  | s => .error (unknownTypeMsg s)

/-- `ContentType::from_attr_or_ext`: either tries to parse the provided
attribute to a ContentType or tries to infer the ContentType from the
AssetFile extension. -/
def ContentType.from_attr_or_ext (attr : Option String) (ext : String) :
    Except String ContentType :=
  match attr with
  | some attr => ContentType.from_str attr
  | none => ContentType.from_str ext

/-- `s` occurs verbatim as a substring of `msg`. -/
def strContains (msg s : String) : Prop :=
  ∃ a b, msg = a ++ s ++ b

/-- Runtime build config (`RtcBuild`); only the release flag is read by
this pipeline. -/
structure RtcBuild where
  release : Bool
  deriving DecidableEq, Repr

/-- Modelled from the spec: `AssetFile` (defined in `pipelines/mod.rs`,
outside the provided source) resolves a declared reference into a
concrete source file, exposing its resolved path and extension string.
The path is modelled as a plain string. -/
structure AssetFile where
  path : String
  ext : String
  deriving DecidableEq, Repr

/-- `LinkAttrs`: mapping from attribute name to attribute value, sourced
from one declaring element. -/
abbrev LinkAttrs := List (String × String)

/-- Attribute lookup on a `LinkAttrs` map. -/
def LinkAttrs.get (attrs : LinkAttrs) (key : String) : Option String :=
  attrs.lookup key

/-- Modelled from the spec: the attribute name of the required
href-equivalent locator (constant `ATTR_HREF` lives in
`pipelines/mod.rs`, outside the provided source). -/
def ATTR_HREF : String := "href"

/-- Modelled from the spec: the attribute name of the optional explicit
content-type attribute (constant `ATTR_TYPE` lives in
`pipelines/mod.rs`, outside the provided source). -/
def ATTR_TYPE : String := "type"

/-- Output style of the external SASS compiler (`sass_rs::OutputStyle`). -/
inductive OutputStyle
  | Nested
  | Expanded
  | Compact
  | Compressed
  deriving DecidableEq, Repr

/-- Options of the external SASS compiler (`sass_rs::Options`); only the
output style is relevant to this pipeline. -/
structure SassOptions where
  output_style : OutputStyle
  deriving DecidableEq, Repr

/-- `sass_rs::Options::default()`: the default output style is `Nested`
(human-readable). -/
def SassOptions.default : SassOptions :=
  { output_style := .Nested }

/-- An Inline asset pipeline task (`struct Inline`). -/
structure Inline where
  /-- The ID of this pipeline's source HTML element. -/
  id : Nat
  /-- Runtime build config. -/
  cfg : RtcBuild
  /-- The asset file being processed. -/
  asset : AssetFile
  /-- The type of the asset file. -/
  content_type : ContentType
  deriving DecidableEq, Repr

/-- The output of an Inline build pipeline (`struct InlineOutput`). -/
structure InlineOutput where
  /-- The ID of this pipeline. -/
  id : Nat
  /-- The content of the target file. -/
  content : String
  /-- The content type of the target file. -/
  content_type : ContentType
  deriving DecidableEq, Repr

/-- The tagged union of pipeline outputs (`TrunkLinkPipelineOutput`);
only the inline variant is in scope. -/
inductive TrunkLinkPipelineOutput
  | Inline (output : InlineOutput)
  deriving DecidableEq, Repr

/-- The error message with which `Inline::new` fails when the `href`
attribute is missing (the `.context(...)` string in the source). -/
def missingHrefMsg : String :=
  "required attr `href` missing for <link data-trunk rel=\"inline\" .../> element"

/-- `Inline::new`: construct a task from the build config, the directory
of `index.html`, the declaring element's attributes and the task ID.
`assetNew` stands for the external `AssetFile::new` resolver, taking the
HTML directory and the locator split on `/`. -/
def Inline.new (cfg : RtcBuild) (html_dir : String) (attrs : LinkAttrs)
    (id : Nat) (assetNew : String → List String → Except String AssetFile) :
    Except String Inline :=
  match attrs.get ATTR_HREF with
  | none => .error missingHrefMsg
  | some href_attr =>
    match assetNew html_dir (href_attr.splitOn "/") with
    | .error e => .error e
    | .ok asset =>
      match ContentType.from_attr_or_ext (attrs.get ATTR_TYPE) asset.ext with
      | .error e => .error e
      | .ok content_type =>
          .ok { id := id, cfg := cfg, asset := asset, content_type := content_type }

/-- The SASS compiler options computed inside `Inline::run`: the
defaults, with the output style switched to `Compressed` when the build
config has the release flag set. -/
def Inline.sassOptions (self : Inline) : SassOptions :=
  let options := SassOptions.default
  if self.cfg.release then { options with output_style := .Compressed } else options

/-- The error message with which `Inline::run` fails when SASS
compilation fails (`anyhow!` with the `{:?}` debug rendering of the
asset path, which wraps the path in double quotes). -/
def compileErrMsg (path : String) : String :=
  "error compiling inline sass/scss for \"" ++ path ++ "\""

/-- `Inline::run`: read the asset file, compile it with the external
SASS compiler when the content type is Scss, and produce the inline
pipeline output. `readFile` stands for the result of the external
`asset.read_to_string()`, and `compileString` for the external
`sass_rs::compile_string`. -/
def Inline.run (self : Inline) (readFile : Except String String)
    (compileString : String → SassOptions → Except String String) :
    Except String TrunkLinkPipelineOutput :=
  match readFile with
  | .error e => .error e
  | .ok content =>
    match self.content_type with
    | .Scss =>
        match compileString content self.sassOptions with
        | .ok compiled =>
            .ok (.Inline { id := self.id, content := compiled,
                           content_type := self.content_type })
        | .error _ => .error (compileErrMsg self.asset.path)
    | _ =>
        .ok (.Inline { id := self.id, content := content,
                       content_type := self.content_type })

/-- Modelled from the spec: a node of the shared document is either a
placeholder tagged with a build-generated per-task ID (the node matched
by `trunk_id_selector`, defined in `pipelines/mod.rs` outside the
provided source) or plain markup. -/
inductive Node
  | placeholder (id : Nat)
  | markup (html : String)
  deriving DecidableEq, Repr

/-- Modelled from the spec: the shared HTML document, as the sequence of
its nodes. -/
abbrev Document := List Node

/-- Modelled from the spec: the external DOM operation
`dom.select(trunk_id_selector(id)).replace_with_html(html)` — every node
matching the per-task ID selector is replaced by the markup; when no
node matches, the document is unchanged. -/
def Document.replaceWithHtml (dom : Document) (id : Nat) (html : String) :
    Document :=
  dom.map fun n =>
    match n with
    | .placeholder i => if i = id then .markup html else n
    | .markup _ => n

/-- Whether the document holds a placeholder node tagged with `id`. -/
def Document.hasPlaceholder (dom : Document) (id : Nat) : Bool :=
  dom.any fun n =>
    match n with
    | .placeholder i => i = id
    | .markup _ => false

/-- The markup string computed inside `InlineOutput::finalize` from the
output's content and content type. -/
def InlineOutput.markup (self : InlineOutput) : String :=
  match self.content_type with
  | .Html => self.content
  | .Css | .Scss => "<style>" ++ self.content ++ "</style>"
  | .Js => "<script>" ++ self.content ++ "</script>"

/-- `InlineOutput::finalize`: compute the markup and replace the
placeholder node carrying this output's task ID with it; returns the
updated document. The source always returns `Ok(())`. -/
def InlineOutput.finalize (self : InlineOutput) (dom : Document) :
    Except String Document :=
  Except.ok (dom.replaceWithHtml self.id self.markup)

end Trunk

namespace Trunk

/-- C3: for every explicit type string in {"html","css","scss","js"} and
every extension string, resolution with the explicit string present
succeeds with the corresponding variant, independently of the extension. -/
theorem from_attr_or_ext_explicit (ext : String) :
    ContentType.from_attr_or_ext (some "html") ext = .ok .Html
    ∧ ContentType.from_attr_or_ext (some "css") ext = .ok .Css
    ∧ ContentType.from_attr_or_ext (some "scss") ext = .ok .Scss
    ∧ ContentType.from_attr_or_ext (some "js") ext = .ok .Js :=
  ⟨rfl, rfl, rfl, rfl⟩

/-- C4: every string outside {"html","css","scss","js"} fails to parse,
and the error message names the offending value and the declaring
`<link data-trunk rel="inline">` construct. -/
theorem from_str_unsupported (s : String)
    (h1 : s ≠ "html") (h2 : s ≠ "css") (h3 : s ≠ "scss") (h4 : s ≠ "js") :
    ContentType.from_str s = .error (unknownTypeMsg s)
    ∧ strContains (unknownTypeMsg s) s
    ∧ strContains (unknownTypeMsg s) "<link data-trunk rel=\"inline\"" := by
  refine ⟨?_, ?_, ?_⟩
  · unfold ContentType.from_str
    split <;> simp_all
  · exact ⟨"unknown `type=\"", "\"` value for <link data-trunk rel=\"inline\" .../> attr; please ensure the value is lowercase and is a supported content type", rfl⟩
  · exact ⟨"unknown `type=\"" ++ s ++ "\"` value for ", " .../> attr; please ensure the value is lowercase and is a supported content type", by simp [unknownTypeMsg, String.append_assoc]⟩

/-- Witness for C4 at the concrete unsupported value "xml". -/
theorem from_str_unsupported_witness :
    ContentType.from_str "xml" = .error (unknownTypeMsg "xml")
    ∧ strContains (unknownTypeMsg "xml") "xml"
    ∧ strContains (unknownTypeMsg "xml") "<link data-trunk rel=\"inline\"" :=
  from_str_unsupported "xml" (by decide) (by decide) (by decide) (by decide)

/-- C5: with no explicit type attribute, resolution of an extension is
exactly parsing that extension as an explicit type string. -/
theorem from_attr_or_ext_fallback (ext : String) :
    ContentType.from_attr_or_ext none ext = ContentType.from_str ext :=
  rfl

/-- C1: the markup inserted by `finalize` is a pure function of the
output's content and content type — verbatim for Html, exactly one
style envelope for Css and Scss, exactly one script envelope for Js. -/
theorem finalize_markup_cases (o : InlineOutput) (dom : Document) :
    o.finalize dom = .ok (dom.replaceWithHtml o.id o.markup)
    ∧ o.markup = (match o.content_type with
        | .Html => o.content
        | .Css => "<style>" ++ o.content ++ "</style>"
        | .Scss => "<style>" ++ o.content ++ "</style>"
        | .Js => "<script>" ++ o.content ++ "</script>") := by
  obtain ⟨i, c, t⟩ := o
  exact ⟨rfl, by cases t <;> rfl⟩

/-- C2: when the asset read succeeds (and, for Scss only, compilation
succeeds — no compiler assumption is needed for Html, Css or Js),
`run` outputs the construction-time ID and content type unchanged, and
the file text — compiled only for Scss, verbatim otherwise — with no
markup wrapping. -/
theorem run_ok (self : Inline) (text compiled : String)
    (compileString : String → SassOptions → Except String String)
    (hc : self.content_type = .Scss →
      compileString text self.sassOptions = .ok compiled) :
    self.run (.ok text) compileString =
      .ok (.Inline { id := self.id,
                     content := match self.content_type with
                       | .Scss => compiled
                       | _ => text,
                     content_type := self.content_type }) := by
  obtain ⟨i, cfg, asset, t⟩ := self
  cases t <;> simp_all [Inline.run]

/-- C7: the SASS compiler options computed by `run` select compressed
output exactly when the release flag is set, are the compiler defaults
otherwise, and are the options `run` passes to the compiler for every
Scss task. -/
theorem run_scss_options (self : Inline) (text : String)
    (compileString : String → SassOptions → Except String String)
    (hs : self.content_type = .Scss) :
    (self.sassOptions.output_style = .Compressed ↔ self.cfg.release = true)
    ∧ (self.cfg.release = false → self.sassOptions = SassOptions.default)
    ∧ self.run (.ok text) compileString =
        (match compileString text self.sassOptions with
          | .ok compiled =>
              .ok (.Inline { id := self.id, content := compiled,
                             content_type := self.content_type })
          | .error _ => .error (compileErrMsg self.asset.path)) := by
  refine ⟨?_, ?_, ?_⟩
  · unfold Inline.sassOptions
    cases hr : self.cfg.release <;> simp [SassOptions.default]
  · intro hr
    unfold Inline.sassOptions
    rw [hr]
    rfl
  · obtain ⟨i, cfg, asset, t⟩ := self
    cases hs
    cases h2 : compileString text (Inline.sassOptions ⟨i, cfg, asset, .Scss⟩) <;>
      simp_all [Inline.run]

/-- Witness for C7 at a concrete release-mode Scss task. -/
theorem run_scss_options_witness :
    Inline.content_type ⟨3, ⟨true⟩, ⟨"a.scss", "scss"⟩, ContentType.Scss⟩ = ContentType.Scss
    ∧ ((Inline.sassOptions ⟨3, ⟨true⟩, ⟨"a.scss", "scss"⟩, ContentType.Scss⟩).output_style
          = OutputStyle.Compressed ↔ (true : Bool) = true)
    ∧ ((true : Bool) = false →
        Inline.sassOptions ⟨3, ⟨true⟩, ⟨"a.scss", "scss"⟩, ContentType.Scss⟩ = SassOptions.default)
    ∧ Inline.run ⟨3, ⟨true⟩, ⟨"a.scss", "scss"⟩, ContentType.Scss⟩ (.ok "x") (fun _ _ => .ok "c")
        = .ok (.Inline ⟨3, "c", ContentType.Scss⟩) :=
  ⟨rfl, run_scss_options ⟨3, ⟨true⟩, ⟨"a.scss", "scss"⟩, ContentType.Scss⟩ "x"
    (fun _ _ => .ok "c") rfl⟩

/-- Witness for C2: a concrete Scss task with a succeeding compiler,
and a concrete Js task whose compiler would fail on the text — the
latter is still covered because `run` never invokes the compiler
there. -/
theorem run_ok_witness :
    ((Inline.content_type ⟨7, ⟨false⟩, ⟨"style.scss", "scss"⟩, ContentType.Scss⟩ = ContentType.Scss →
        (fun (_ : String) (_ : SassOptions) => (Except.ok "c" : Except String String)) "x"
          (Inline.sassOptions ⟨7, ⟨false⟩, ⟨"style.scss", "scss"⟩, ContentType.Scss⟩) = .ok "c")
      ∧ Inline.run ⟨7, ⟨false⟩, ⟨"style.scss", "scss"⟩, ContentType.Scss⟩ (.ok "x")
          (fun _ _ => .ok "c")
          = .ok (.Inline ⟨7, "c", ContentType.Scss⟩))
    ∧ Inline.run ⟨5, ⟨false⟩, ⟨"app.js", "js"⟩, ContentType.Js⟩ (.ok "x")
        (fun _ _ => .error "sass cannot parse js")
        = .ok (.Inline ⟨5, "x", ContentType.Js⟩) :=
  ⟨⟨fun _ => rfl,
    run_ok ⟨7, ⟨false⟩, ⟨"style.scss", "scss"⟩, ContentType.Scss⟩ "x" "c"
      (fun _ _ => .ok "c") (fun _ => rfl)⟩,
    run_ok ⟨5, ⟨false⟩, ⟨"app.js", "js"⟩, ContentType.Js⟩ "x" "c"
      (fun _ _ => .error "sass cannot parse js") (fun h => ContentType.noConfusion h)⟩

/-- C9: when SASS compilation fails, `run` fails (produces no output)
with a message naming the source file being compiled. -/
theorem run_compile_error (self : Inline) (text e : String)
    (compileString : String → SassOptions → Except String String)
    (hs : self.content_type = .Scss)
    (hc : compileString text self.sassOptions = .error e) :
    self.run (.ok text) compileString = .error (compileErrMsg self.asset.path)
    ∧ strContains (compileErrMsg self.asset.path) self.asset.path := by
  constructor
  · obtain ⟨i, cfg, asset, t⟩ := self
    cases hs
    simp_all [Inline.run]
  · exact ⟨"error compiling inline sass/scss for \"", "\"", rfl⟩

/-- Witness for C9 at a concrete Scss task with a failing compiler. -/
theorem run_compile_error_witness :
    Inline.content_type ⟨2, ⟨false⟩, ⟨"bad.scss", "scss"⟩, ContentType.Scss⟩ = ContentType.Scss
    ∧ (fun (_ : String) (_ : SassOptions) => (Except.error "syntax" : Except String String)) "t"
        (Inline.sassOptions ⟨2, ⟨false⟩, ⟨"bad.scss", "scss"⟩, ContentType.Scss⟩) = .error "syntax"
    ∧ Inline.run ⟨2, ⟨false⟩, ⟨"bad.scss", "scss"⟩, ContentType.Scss⟩ (.ok "t")
        (fun _ _ => .error "syntax")
        = .error (compileErrMsg "bad.scss")
    ∧ strContains (compileErrMsg "bad.scss") "bad.scss" :=
  ⟨rfl, rfl, run_compile_error ⟨2, ⟨false⟩, ⟨"bad.scss", "scss"⟩, ContentType.Scss⟩ "t" "syntax"
    (fun _ _ => .error "syntax") rfl rfl⟩

/-- C8: a missing `href` attribute fails construction with the
missing-required-attribute error, which names `href` and the declaring
`<link data-trunk rel="inline">` element; no task is produced. -/
theorem new_missing_href (cfg : RtcBuild) (html_dir : String)
    (attrs : LinkAttrs) (id : Nat)
    (assetNew : String → List String → Except String AssetFile)
    (h : attrs.get ATTR_HREF = none) :
    Inline.new cfg html_dir attrs id assetNew = .error missingHrefMsg
    ∧ strContains missingHrefMsg "href"
    ∧ strContains missingHrefMsg "<link data-trunk rel=\"inline\" .../>" := by
  refine ⟨?_, ?_, ?_⟩
  · simp [Inline.new, h]
  · exact ⟨"required attr `", "` missing for <link data-trunk rel=\"inline\" .../> element", rfl⟩
  · exact ⟨"required attr `href` missing for ", " element", rfl⟩

/-- Witness for C8 at a concrete attribute map without `href`. -/
theorem new_missing_href_witness :
    LinkAttrs.get [("type", "css")] ATTR_HREF = none
    ∧ Inline.new ⟨false⟩ "dir" [("type", "css")] 0 (fun _ _ => .ok ⟨"p", "css"⟩)
        = .error missingHrefMsg
    ∧ strContains missingHrefMsg "href"
    ∧ strContains missingHrefMsg "<link data-trunk rel=\"inline\" .../>" :=
  ⟨rfl, new_missing_href ⟨false⟩ "dir" [("type", "css")] 0 (fun _ _ => .ok ⟨"p", "css"⟩) rfl⟩

/-- The missing-href error can never coincide with an
unknown-content-type error: the latter is strictly longer. -/
theorem missingHref_ne_unknownType (s : String) :
    missingHrefMsg ≠ unknownTypeMsg s := by
  intro h
  have hl := congrArg String.length h
  rw [unknownTypeMsg, String.length_append, String.length_append] at hl
  have h1 : missingHrefMsg.length = 76 := rfl
  have h2 : ("unknown `type=\"" : String).length = 15 := rfl
  have h3 : ("\"` value for <link data-trunk rel=\"inline\" .../> attr; please ensure the value is lowercase and is a supported content type" : String).length = 123 := rfl
  omega

/-- C10: the `href` check comes first in construction — with `href`
missing, construction fails with the missing-href error whatever the
other attributes hold, the result does not depend on the asset resolver
(no resolution is attempted), and the failure is never the
unknown-content-type error. -/
theorem new_href_checked_first (cfg : RtcBuild) (html_dir : String)
    (attrs : LinkAttrs) (id : Nat)
    (assetNew assetNew2 : String → List String → Except String AssetFile)
    (h : attrs.get ATTR_HREF = none) :
    Inline.new cfg html_dir attrs id assetNew = .error missingHrefMsg
    ∧ Inline.new cfg html_dir attrs id assetNew = Inline.new cfg html_dir attrs id assetNew2
    ∧ ∀ s, Inline.new cfg html_dir attrs id assetNew ≠ .error (unknownTypeMsg s) := by
  have h1 : Inline.new cfg html_dir attrs id assetNew = .error missingHrefMsg := by
    simp [Inline.new, h]
  have h2 : Inline.new cfg html_dir attrs id assetNew2 = .error missingHrefMsg := by
    simp [Inline.new, h]
  refine ⟨h1, h1.trans h2.symm, ?_⟩
  intro s hcontra
  rw [h1] at hcontra
  exact missingHref_ne_unknownType s (Except.error.inj hcontra)

/-- Witness for C10: `href` missing while an invalid `type="xml"` is
present and the resolver would succeed — still the missing-href error. -/
theorem new_href_checked_first_witness :
    LinkAttrs.get [("type", "xml")] ATTR_HREF = none
    ∧ Inline.new ⟨true⟩ "d" [("type", "xml")] 1 (fun _ _ => .ok ⟨"q", "xml"⟩)
        = .error missingHrefMsg
    ∧ Inline.new ⟨true⟩ "d" [("type", "xml")] 1 (fun _ _ => .ok ⟨"q", "xml"⟩)
        = Inline.new ⟨true⟩ "d" [("type", "xml")] 1 (fun _ _ => .error "nope")
    ∧ ∀ s, Inline.new ⟨true⟩ "d" [("type", "xml")] 1 (fun _ _ => .ok ⟨"q", "xml"⟩)
        ≠ .error (unknownTypeMsg s) :=
  ⟨rfl, new_href_checked_first ⟨true⟩ "d" [("type", "xml")] 1
    (fun _ _ => .ok ⟨"q", "xml"⟩) (fun _ _ => .error "nope") rfl⟩

/-- Replacing by a selector that matches no node leaves the document
unchanged. -/
theorem replaceWithHtml_of_no_placeholder (dom : Document) (id : Nat) (html : String)
    (h : dom.hasPlaceholder id = false) :
    dom.replaceWithHtml id html = dom := by
  induction dom with
  | nil => rfl
  | cons n rest ih =>
    unfold Document.hasPlaceholder at h
    rw [List.any_cons, Bool.or_eq_false_iff] at h
    obtain ⟨hn, hrest⟩ := h
    unfold Document.replaceWithHtml
    rw [List.map_cons]
    have htail : Document.replaceWithHtml rest id html = rest := ih hrest
    unfold Document.replaceWithHtml at htail
    rw [htail]
    cases n with
    | placeholder i =>
      simp only [decide_eq_false_iff_not] at hn
      simp [hn]
    | markup m => rfl

/-- C6 counterexample: `finalize` on a document without the task's
placeholder node succeeds (it does not fail) and leaves the document
unmodified. -/
theorem finalize_no_node_cex :
    Document.hasPlaceholder [Node.placeholder 1] 0 = false
    ∧ (InlineOutput.finalize ⟨0, "x", ContentType.Html⟩ [Node.placeholder 1]).isOk = true
    ∧ InlineOutput.finalize ⟨0, "x", ContentType.Html⟩ [Node.placeholder 1]
        = .ok [Node.placeholder 1] :=
  ⟨rfl, rfl, rfl⟩

/-- C6 (amended): when no placeholder node carries the output's task
ID, `finalize` succeeds and returns the document unmodified — the
source unconditionally returns `Ok`. -/
theorem finalize_no_node (o : InlineOutput) (dom : Document)
    (h : dom.hasPlaceholder o.id = false) :
    o.finalize dom = .ok dom := by
  unfold InlineOutput.finalize
  rw [replaceWithHtml_of_no_placeholder dom o.id o.markup h]

/-- Witness for the amended C6 at a concrete output and document. -/
theorem finalize_no_node_witness :
    Document.hasPlaceholder [Node.placeholder 1] 0 = false
    ∧ InlineOutput.finalize ⟨0, "y", ContentType.Js⟩ [Node.placeholder 1]
        = .ok [Node.placeholder 1] :=
  ⟨rfl, finalize_no_node ⟨0, "y", ContentType.Js⟩ [Node.placeholder 1] rfl⟩

end Trunk
